import Mathlib

/-!
Shallow embedding of the rule-driven opportunity-inference engine of
`src/agentic_graph_middleware/schemas/kuzu_sow_schema.py`
(class `KuzuSOWGraphEngine`), with the claims of the specification settled
as theorems.

Modelling conventions:
- Python `float` is modelled as `ℚ`; Python `round(x, 2)` uses
  round-half-to-even (banker's rounding), modelled by `roundHalfEven`;
  `int(x)` on non-negative values is `Rat.floor`.
- Python strings are Lean `String`s; `str.lower()` is modelled for the
  ASCII range (`lowerStr`), `pat in s` is substring containment
  (`hasSubstrS`), `s.split()` splits on whitespace runs (`tokenList`).
- Wall-clock timestamps (`created_at`, `last_applied`) are outside the
  model: they are filled by `datetime.now()` and no claim depends on them.
- The KuzuDB store is modelled as explicit lists of typed rows in a
  `Graph` record.  A Cypher `CREATE` on a node table fails on a duplicate
  primary key; `MATCH ... CREATE` of a relationship creates one edge per
  matched pair of endpoints and silently creates none when a `MATCH` is
  empty.  `QueryResult.get_next()` yields the next row of a result and
  fails when no row remains (this is kuzu's documented cursor behaviour;
  the alternative None-returning model leads to the same observable
  results, since subscripting None also raises).
- Store failures are modelled by a fault oracle `Faults : Nat → Bool`
  consulted at each successive `conn.execute` call; `noFault` is the
  fault-free store.  A Python `except Exception` block is modelled by the
  explicit early returns at the points where an exception can arise.
-/

/-- ASCII lower-casing of one character, the fragment of Python
`str.lower()` exercised by the engine's rule patterns and descriptions. -/
def lowerChar (c : Char) : Char :=
  if 'A' ≤ c ∧ c ≤ 'Z' then Char.ofNat (c.toNat + 32) else c

/-- Python `s.lower()` restricted to ASCII. -/
def lowerStr (s : String) : String :=
  ⟨s.data.map lowerChar⟩

/-- List-of-characters prefix test. -/
def startsWith : List Char → List Char → Bool
  | [], _ => true
  | _ :: _, [] => false
  | p :: ps, c :: cs => p == c && startsWith ps cs

/-- Python `pat in s` on strings: `pat` occurs as a contiguous substring. -/
def hasSubstr (pat : List Char) : List Char → Bool
  | [] => startsWith pat []
  | c :: cs => startsWith pat (c :: cs) || hasSubstr pat cs

/-- String wrapper for `hasSubstr`. -/
def hasSubstrS (pat s : String) : Bool :=
  hasSubstr pat.data s.data

/-- Whitespace characters recognised by Python `str.split()`. -/
def isWs (c : Char) : Bool :=
  c == ' ' || c == '\t' || c == '\n' || c == '\r'

/-- Helper for `tokenList`: accumulates the current word (reversed). -/
def tokenAux : List Char → List Char → List (List Char)
  | [], acc => if acc.isEmpty then [] else [acc.reverse]
  | c :: cs, acc =>
    if isWs c then
      if acc.isEmpty then tokenAux cs [] else acc.reverse :: tokenAux cs []
    else tokenAux cs (c :: acc)

/-- Python `s.split()`: splits on runs of whitespace, dropping empties. -/
def tokenList (s : String) : List (List Char) :=
  tokenAux s.data []

/-- Round half to even (Python `round`'s tie rule) of a rational to an
integer. -/
def roundHalfEven (x : ℚ) : ℤ :=
  if x - ⌊x⌋ < 1/2 then ⌊x⌋
  else if 1/2 < x - ⌊x⌋ then ⌊x⌋ + 1
  else if ⌊x⌋ % 2 = 0 then ⌊x⌋ else ⌊x⌋ + 1

/-- Python `round(x, 2)`. -/
def round2 (x : ℚ) : ℚ :=
  (roundHalfEven (x * 100) : ℚ) / 100

/-- Python `f"{n:03d}"` for a natural number. -/
def pad3 (n : Nat) : String :=
  if n < 10 then "00" ++ Nat.repr n
  else if n < 100 then "0" ++ Nat.repr n
  else Nat.repr n

/-- `BusinessRequirement` dataclass / node table (timestamp columns are
outside the model). -/
structure BusinessRequirement where
  id : String
  description : String
  priority : Int
  domain : String
  complexity : String
  estimated_hours : Option Int
  business_value : Option ℚ
deriving DecidableEq

/-- `AnalyticalOpportunity` dataclass / node table (timestamp column is
outside the model). -/
structure AnalyticalOpportunity where
  id : String
  description : String
  complexity : String
  business_value : ℚ
  confidence_score : ℚ
  discovery_method : String
  related_requirements : List String
  implementation_approach : String
  estimated_hours : Int
  roi_projection : Option ℚ
deriving DecidableEq

/-- `DomainEntity` dataclass / node table. -/
structure DomainEntity where
  id : String
  name : String
  entity_type : String
  industry : String
  maturity_level : String
  technology_stack : List String
  data_maturity : String
deriving DecidableEq

/-- `InferenceRule` dataclass / node table (the `usage_count` and
`last_applied` bookkeeping columns are written once at load time and never
read by the engine; they are outside the model). -/
structure InferenceRule where
  id : String
  rule_type : String
  condition_pattern : String
  conclusion_template : String
  confidence_weight : ℚ
  domain_applicability : List String
  success_rate : ℚ
deriving DecidableEq

/-- An `IMPLIES` relationship row (Requirement → Opportunity); the
`created_at` column is outside the model. -/
structure ImpliesEdge where
  fromReq : String
  toOpp : String
  confidence : ℚ
  reasoning : String
  inference_path : String
deriving DecidableEq

/-- The KuzuDB store contents relevant to the inference engine, as typed
row lists in insertion order. -/
structure Graph where
  reqs : List BusinessRequirement
  opps : List AnalyticalOpportunity
  entities : List DomainEntity
  rules : List InferenceRule
  implies : List ImpliesEdge
deriving DecidableEq

/-- The empty store. -/
def Graph.empty : Graph :=
  ⟨[], [], [], [], []⟩

/-- Fault oracle for the store: `faults n = true` means the `n`-th
`conn.execute` call of the run raises a store error. -/
def Faults : Type := Nat → Bool

/-- The fault-free store. -/
def noFault : Faults := fun _ => false

/-- `_infer_complexity` (kuzu_sow_schema.py lines 602-613): the
`complexity_map` options for a requirement complexity and rule
confidence, then `options[-1] if len(options) > 1 else options[0]`. -/
def infer_complexity (req_complexity : String) (confidence : ℚ) : String :=
  let options : List String :=
    if req_complexity == "low" then
      (if confidence > 0.8 then ["low", "medium"] else ["low"])
    else if req_complexity == "medium" then
      (if confidence > 0.7 then ["low", "medium", "high"] else ["medium"])
    else if req_complexity == "high" then
      (if confidence > 0.8 then ["medium", "high", "very_high"] else ["high"])
    else if req_complexity == "very_high" then ["high", "very_high"]
    else ["medium"]
  if options.length > 1 then options.getLastD "medium" else options.headD "medium"

/-- `_calculate_business_value` (lines 615-619):
`round(1000 * confidence * success_rate * 1.5, 2)`. -/
def calculate_business_value (confidence success_rate : ℚ) : ℚ :=
  round2 (1000 * (confidence * success_rate * 1.5))

/-- The `domain_synergies` dictionary lookup of
`_calculate_cross_domain_value` (lines 624-632), default 1.1. -/
def domain_synergy (source_domain target_domain : String) : ℚ :=
  if source_domain == "finance" && target_domain == "healthcare" then 1.4
  else if source_domain == "manufacturing" && target_domain == "retail" then 1.3
  else if source_domain == "healthcare" && target_domain == "insurance" then 1.5
  else if source_domain == "retail" && target_domain == "logistics" then 1.2
  else 1.1

/-- `_calculate_cross_domain_value` (lines 621-633):
`round(1200 * synergy, 2)`. -/
def calculate_cross_domain_value (source_domain target_domain : String) : ℚ :=
  round2 (1200 * domain_synergy source_domain target_domain)

/-- `_suggest_implementation` (lines 635-646): keyword-to-template
lookup over the lowered opportunity description. -/
def suggest_implementation (description : String) : String :=
  let d := lowerStr description
  if hasSubstrS "quality" d then
    "Implement data profiling tools with automated quality checks and remediation workflows"
  else if hasSubstrS "risk" d then
    "Deploy predictive analytics models with real-time monitoring dashboards"
  else if hasSubstrS "segmentation" d then
    "Develop machine learning clustering models with behavioral analysis"
  else if hasSubstrS "compliance" d then
    "Build automated compliance monitoring with audit trail management"
  else
    "Implement analytics platform with custom dashboards and reporting capabilities"

/-- `_estimate_hours` (lines 648-667): base hours by complexity (default
160) with multiplicative keyword surcharges, truncated to `int`. -/
def estimate_hours (description complexity : String) : Int :=
  let base : ℚ :=
    if complexity == "low" then 80
    else if complexity == "medium" then 160
    else if complexity == "high" then 320
    else if complexity == "very_high" then 480
    else 160
  let d := lowerStr description
  let h1 := if hasSubstrS "automation" d then base * 1.3 else base
  let h2 := if hasSubstrS "machine learning" d then h1 * 1.4 else h1
  let h3 := if hasSubstrS "real-time" d then h2 * 1.2 else h2
  h3.floor

/-- `_estimate_cross_domain_hours` (lines 669-678): base 240 with
keyword surcharges, truncated to `int`. -/
def estimate_cross_domain_hours (description : String) : Int :=
  let d := lowerStr description
  let h1 : ℚ := if hasSubstrS "integration" d then 240 * 1.3 else 240
  let h2 := if hasSubstrS "correlation" d then h1 * 1.2 else h1
  h2.floor

/-- The match test of `discover_implicit_opportunities` (lines 470-472):
`condition_pattern in req_description or any(word in req_description for
word in condition_pattern.split())`, where `patLower` is the already
lowered condition pattern and `desc` the already lowered requirement
description. -/
def rule_match_test (patLower desc : String) : Bool :=
  hasSubstrS patLower desc
    || (tokenList patLower).any (fun w => hasSubstr w desc.data)

/-- The `WHERE` clause of the `inference_query` (lines 450-457).  Cypher's
`AND` binds tighter than `OR`, so the success-rate threshold applies only
to the `'all'` disjunct:
`domain IN rule.domain_applicability OR ('all' IN rule.domain_applicability
AND rule.success_rate > 0.6)`. -/
def code_applicable (domain : String) (r : InferenceRule) : Bool :=
  r.domain_applicability.contains domain
    || (r.domain_applicability.contains "all" && decide (r.success_rate > 0.6))

/-- The `ORDER BY rule.confidence_weight DESC, rule.success_rate DESC`
comparison of the `inference_query`: `a` sorts no later than `b`.  There
is no further tie-break column in the query. -/
def rule_le (a b : InferenceRule) : Bool :=
  decide (b.confidence_weight < a.confidence_weight)
    || (decide (a.confidence_weight = b.confidence_weight)
        && decide (b.success_rate ≤ a.success_rate))

/-- Stable insertion of a rule into a list sorted by `rule_le`. -/
def insRule (x : InferenceRule) : List InferenceRule → List InferenceRule
  | [] => [x]
  | y :: ys => if rule_le x y then x :: y :: ys else y :: insRule x ys

/-- Stable sort by `rule_le`, modelling the `ORDER BY` of the
`inference_query`; relative order of rows equal on both sort keys is the
store's iteration (insertion) order. -/
def sortRules : List InferenceRule → List InferenceRule
  | [] => []
  | x :: xs => insRule x (sortRules xs)

/-- The `inference_query` of `discover_implicit_opportunities`
(lines 450-459): filter by `code_applicable`, order by `rule_le`. -/
def inference_rule_query (g : Graph) (domain : String) : List InferenceRule :=
  sortRules (g.rules.filter (code_applicable domain))

/-- The `req_query` of `discover_implicit_opportunities` (lines 433-438):
rows `(description, domain, complexity)` of requirements with the given
id (at most one row when ids are unique, by the primary key). -/
def req_rows (g : Graph) (requirement_id : String) :
    List (String × String × String) :=
  (g.reqs.filter (fun r => r.id == requirement_id)).map
    (fun r => (r.description, r.domain, r.complexity))

/-- The `cross_domain_query` of `_discover_cross_domain_opportunities`
(lines 512-519): entities of a different industry with
`maturity_level IN ['mature', 'enterprise']` and
`data_maturity IN ['managed', 'optimized']`, `LIMIT 5`.  The query
projects `(id, name, industry, technology_stack)`; the loop reads exactly
those columns, so rows are modelled by the entity records themselves. -/
def cross_domain_query (g : Graph) (req_domain : String) : List DomainEntity :=
  ((g.entities.filter (fun e =>
    e.industry != req_domain
      && (e.maturity_level == "mature" || e.maturity_level == "enterprise")
      && (e.data_maturity == "managed" || e.data_maturity == "optimized"))).take 5)

/-- `add_business_requirement` (lines 342-368): a `CREATE` that fails on
a duplicate primary key (caught, returning `False`) and appends the row
otherwise.  The write is execute call `n` of the run. -/
def add_business_requirement (faults : Faults) (n : Nat) (g : Graph)
    (requirement : BusinessRequirement) : Bool × Nat × Graph :=
  if faults n then (false, n + 1, g)
  else if g.reqs.any (fun r => r.id == requirement.id) then (false, n + 1, g)
  else (true, n + 1, { g with reqs := g.reqs ++ [requirement] })

/-- `add_domain_entity` (lines 370-392): as `add_business_requirement`,
for the `DomainEntity` table. -/
def add_domain_entity (faults : Faults) (n : Nat) (g : Graph)
    (entity : DomainEntity) : Bool × Nat × Graph :=
  if faults n then (false, n + 1, g)
  else if g.entities.any (fun e => e.id == entity.id) then (false, n + 1, g)
  else (true, n + 1, { g with entities := g.entities ++ [entity] })

/-- `add_inference_rule` (lines 394-420): a single `CREATE` of the rule
node inside a `try`, returning `True` on success and `False` (without
storing) when the store raises — on a fault or a duplicate primary key.
No validation of `confidence_weight`, `success_rate` or
`domain_applicability` is performed. -/
def add_inference_rule (faults : Faults) (n : Nat) (g : Graph)
    (rule : InferenceRule) : Bool × Nat × Graph :=
  if faults n then (false, n + 1, g)
  else if g.rules.any (fun r => r.id == rule.id) then (false, n + 1, g)
  else (true, n + 1, { g with rules := g.rules ++ [rule] })

/-- `_add_discovered_opportunity` (lines 553-600): inside one `try`, a
`CREATE` of the opportunity node (execute call `n`) followed by a
`MATCH ... MATCH ... CREATE` of the `IMPLIES` edge (execute call `n+1`).
If the node write raises (fault, or duplicate opportunity primary key)
the exception is caught and nothing is written.  If the edge write raises
after the node write succeeded, the exception is caught and the node
remains without its edge.  If the edge write runs but a `MATCH` is empty,
no edge row is created (Cypher creates one edge per matched endpoint
pair); no error is raised in that case. -/
def add_discovered_opportunity (faults : Faults) (n : Nat) (g : Graph)
    (opportunity : AnalyticalOpportunity) (requirement_id source_id : String) :
    Nat × Graph :=
  if faults n then (n + 1, g)
  else if g.opps.any (fun o => o.id == opportunity.id) then (n + 1, g)
  else
    let g1 : Graph := { g with opps := g.opps ++ [opportunity] }
    if faults (n + 1) then (n + 2, g1)
    else
      let edge : ImpliesEdge :=
        { fromReq := requirement_id
          toOpp := opportunity.id
          confidence := opportunity.confidence_score
          reasoning := "Discovered via " ++ opportunity.discovery_method
          inference_path :=
            "REQ:" ++ requirement_id ++ " -> SOURCE:" ++ source_id
              ++ " -> OPP:" ++ opportunity.id }
      let newEdges :=
        (g1.reqs.filter (fun r => r.id == requirement_id)).flatMap
          (fun _ => (g1.opps.filter (fun o => o.id == opportunity.id)).map
            (fun _ => edge))
      (n + 2, { g1 with implies := g1.implies ++ newEdges })

/-- The opportunity record assembled in the rule loop of
`discover_implicit_opportunities` (lines 474-484). -/
def mk_rule_opportunity (requirement_id : String) (counter : Nat)
    (rule : InferenceRule) (req_complexity : String) : AnalyticalOpportunity :=
  { id := requirement_id ++ "_OPP_" ++ pad3 counter
    description := rule.conclusion_template
    complexity := infer_complexity req_complexity rule.confidence_weight
    business_value :=
      calculate_business_value rule.confidence_weight rule.success_rate
    confidence_score := rule.confidence_weight * rule.success_rate
    discovery_method := "graph_traversal"
    related_requirements := [requirement_id]
    implementation_approach := suggest_implementation rule.conclusion_template
    estimated_hours := estimate_hours rule.conclusion_template req_complexity
    roi_projection := none }

/-- The `for rule_record in inference_result` loop of
`discover_implicit_opportunities` (lines 461-491): for each rule row, the
condition pattern is lowered and tested against the (already lowered)
requirement description; on a match the opportunity is appended to the
result list and then written to the graph (whose own exceptions are
caught inside `_add_discovered_opportunity`), and the per-requirement
counter is incremented. -/
def rule_loop (faults : Faults) (n : Nat) (g : Graph)
    (requirement_id req_description req_complexity : String) :
    List InferenceRule → Nat → List AnalyticalOpportunity × Nat × Graph
  | [], _ => ([], n, g)
  | rule :: rest, counter =>
    if rule_match_test (lowerStr rule.condition_pattern) req_description then
      let opportunity :=
        mk_rule_opportunity requirement_id counter rule req_complexity
      let w := add_discovered_opportunity faults n g opportunity
        requirement_id rule.id
      let r := rule_loop faults w.1 w.2 requirement_id req_description
        req_complexity rest (counter + 1)
      (opportunity :: r.1, r.2)
    else
      rule_loop faults n g requirement_id req_description req_complexity
        rest counter

/-- The opportunity record assembled per entity row in
`_discover_cross_domain_opportunities` (lines 524-541). -/
def mk_cross_opportunity (req_id req_domain req_description : String)
    (counter : Nat) (e : DomainEntity) : AnalyticalOpportunity :=
  { id := req_id ++ "_CROSS_" ++ pad3 counter
    description := "Cross-domain analytics leveraging " ++ e.industry
      ++ " domain patterns for enhanced " ++ req_domain ++ " insights"
    complexity := "medium"
    business_value := calculate_cross_domain_value req_domain e.industry
    confidence_score := 0.7
    discovery_method := "cross_domain"
    related_requirements := [req_id]
    implementation_approach := "Leverage " ++ e.industry
      ++ " domain expertise and "
      ++ String.intercalate ", " (e.technology_stack.take 3)
      ++ " technologies"
    estimated_hours := estimate_cross_domain_hours req_description
    roi_projection := none }

/-- The `for record in result` loop of
`_discover_cross_domain_opportunities` (lines 523-546): every selected
entity row yields one opportunity, appended to the result list and then
written to the graph. -/
def cross_loop (faults : Faults) (n : Nat) (g : Graph)
    (req_id req_domain req_description : String) :
    List DomainEntity → Nat → List AnalyticalOpportunity × Nat × Graph
  | [], _ => ([], n, g)
  | e :: rest, counter =>
    let opportunity :=
      mk_cross_opportunity req_id req_domain req_description counter e
    let w := add_discovered_opportunity faults n g opportunity req_id
      ("CROSS_DOMAIN_" ++ e.id)
    let r := cross_loop faults w.1 w.2 req_id req_domain req_description
      rest (counter + 1)
    (opportunity :: r.1, r.2)

/-- `_discover_cross_domain_opportunities` (lines 506-551): runs the
cross-domain entity query (execute call `n`; if it raises, the helper's
own `except` catches and returns the empty accumulator), then the entity
loop starting at counter 1. -/
def discover_cross_domain_opportunities (faults : Faults) (n : Nat)
    (g : Graph) (req_id req_domain req_description : String) :
    List AnalyticalOpportunity × Nat × Graph :=
  if faults n then ([], n + 1, g)
  else
    cross_loop faults (n + 1) g req_id req_domain req_description
      (cross_domain_query g req_domain) 1

/-- `discover_implicit_opportunities` (lines 422-504).  The body is one
`try` whose `except Exception` returns the `opportunities` accumulated so
far.  Control flow of the translation:
- execute call 0 is the `req_query`; if it raises, the catch-all returns
  the empty accumulator;
- `if not req_result.get_next()` (line 440) consumes the first result
  row; on an empty result the cursor has no row to yield and the call
  ends with the empty accumulator (a returned row is a non-empty tuple
  and is never falsy, so the `return` on line 442 is not otherwise
  taken);
- `req_data = req_result.get_next()` (line 444) asks for a second row.
  With unique requirement ids the result has exactly one row, so this
  fails, the catch-all returns the empty accumulator, and the call ends.
  Only a store holding several requirement rows under the same id (which
  the primary key forbids) reaches the rule loop, with the second row as
  `req_data`;
- execute call 1 is the `inference_query`; then the rule loop (whose
  writes start at execute call 2) and the cross-domain helper run, and
  their result lists are concatenated. -/
def discover_implicit_opportunities (faults : Faults) (g : Graph)
    (requirement_id : String) : List AnalyticalOpportunity × Graph :=
  if faults 0 then ([], g)
  else
    match req_rows g requirement_id with
    | [] => ([], g)
    | _ :: [] => ([], g)
    | _ :: reqData :: _ =>
      let req_description := lowerStr reqData.1
      let req_domain := reqData.2.1
      let req_complexity := reqData.2.2
      if faults 1 then ([], g)
      else
        let rules := inference_rule_query g req_domain
        let rl := rule_loop faults 2 g requirement_id req_description
          req_complexity rules 1
        let cd := discover_cross_domain_opportunities faults rl.2.1 rl.2.2
          requirement_id req_domain req_description
        (rl.1 ++ cd.1, cd.2.2)

/-- Well-formedness delivered by the store's primary keys: requirement
ids are unique (`CREATE` on the `BusinessRequirement` table rejects a
duplicate id, see `add_business_requirement`). -/
abbrev ReqWF (g : Graph) : Prop :=
  (g.reqs.map (fun r => r.id)).Nodup

/-- `rule_le` is total. -/
theorem rule_le_total (a b : InferenceRule) :
    rule_le a b = true ∨ rule_le b a = true := by
  unfold rule_le
  simp only [Bool.or_eq_true, Bool.and_eq_true, decide_eq_true_eq]
  rcases lt_trichotomy a.confidence_weight b.confidence_weight with h | h | h
  · right; left; exact h
  · rcases le_total b.success_rate a.success_rate with hs | hs
    · left; right; exact ⟨h, hs⟩
    · right; right; exact ⟨h.symm, hs⟩
  · left; left; exact h

/-- `rule_le` is transitive. -/
theorem rule_le_trans (a b c : InferenceRule) (hab : rule_le a b = true)
    (hbc : rule_le b c = true) : rule_le a c = true := by
  unfold rule_le at hab hbc ⊢
  simp only [Bool.or_eq_true, Bool.and_eq_true, decide_eq_true_eq] at hab hbc ⊢
  rcases hab with h1 | ⟨h1, hs1⟩
  · rcases hbc with h2 | ⟨h2, hs2⟩
    · left; exact h2.trans h1
    · left; exact h2 ▸ h1
  · rcases hbc with h2 | ⟨h2, hs2⟩
    · left; exact h1 ▸ h2
    · right; exact ⟨h1.trans h2, hs2.trans hs1⟩

/-- Membership in an insertion. -/
theorem mem_insRule (a x : InferenceRule) (l : List InferenceRule) :
    a ∈ insRule x l ↔ a = x ∨ a ∈ l := by
  induction l with
  | nil => simp [insRule]
  | cons y ys ih =>
    unfold insRule
    split
    · simp [List.mem_cons]
    · simp only [List.mem_cons, ih]
      tauto

/-- Membership is preserved by `sortRules`. -/
theorem mem_sortRules (a : InferenceRule) (l : List InferenceRule) :
    a ∈ sortRules l ↔ a ∈ l := by
  induction l with
  | nil => simp [sortRules]
  | cons x xs ih => simp [sortRules, mem_insRule, ih]

/-- Insertion preserves sortedness. -/
theorem pairwise_insRule (x : InferenceRule) (l : List InferenceRule)
    (h : l.Pairwise (fun a b => rule_le a b = true)) :
    (insRule x l).Pairwise (fun a b => rule_le a b = true) := by
  induction l with
  | nil => simp [insRule]
  | cons y ys ih =>
    unfold insRule
    split
    · rename_i hxy
      refine List.Pairwise.cons ?_ h
      intro b hb
      rcases List.mem_cons.mp hb with rfl | hb
      · exact hxy
      · exact rule_le_trans x y b hxy ((List.pairwise_cons.mp h).1 b hb)
    · rename_i hxy
      have hyx : rule_le y x = true := by
        rcases rule_le_total x y with h' | h'
        · exact absurd h' hxy
        · exact h'
      rcases List.pairwise_cons.mp h with ⟨hy, hys⟩
      refine List.Pairwise.cons ?_ (ih hys)
      intro b hb
      rcases (mem_insRule b x ys).mp hb with rfl | hb
      · exact hyx
      · exact hy b hb

/-- The output of `sortRules` is sorted by `rule_le`, i.e. by
`(confidence_weight desc, success_rate desc)`. -/
theorem pairwise_sortRules (l : List InferenceRule) :
    (sortRules l).Pairwise (fun a b => rule_le a b = true) := by
  induction l with
  | nil => simp [sortRules]
  | cons x xs ih => exact pairwise_insRule x (sortRules xs) ih

/-- With unique requirement ids, filtering requirements by one id keeps
at most one row. -/
theorem filter_id_len_le_one (l : List BusinessRequirement) (x : String)
    (h : (l.map (fun r => r.id)).Nodup) :
    (l.filter (fun r => r.id == x)).length ≤ 1 := by
  induction l with
  | nil => simp
  | cons a t ih =>
    simp only [List.map_cons, List.nodup_cons] at h
    by_cases hax : a.id = x
    · have ht : t.filter (fun r => r.id == x) = [] := by
        refine List.filter_eq_nil_iff.mpr ?_
        intro b hb hbx
        exact h.1 (hax ▸ (beq_iff_eq.mp hbx) ▸ List.mem_map_of_mem _ hb)
      simp [List.filter_cons, hax, ht]
    · have hax' : (a.id == x) = false := beq_eq_false_iff_ne.mpr hax
      simp only [List.filter_cons, hax']
      exact ih h.2

/-- For every fault behaviour of the store and every store whose
requirement ids are unique, `discover_implicit_opportunities` returns the
empty list and leaves the store untouched: the existence check on
line 440 consumes the only row the `req_query` can produce, so the data
read on line 444 finds no row, the resulting error is swallowed by the
catch-all on line 502, and the empty accumulator is returned before any
rule is applied or any write is attempted. -/
theorem discover_run_empty (faults : Faults) (g : Graph)
    (requirement_id : String) (h : ReqWF g) :
    discover_implicit_opportunities faults g requirement_id = ([], g) := by
  have hlen : (req_rows g requirement_id).length ≤ 1 := by
    unfold req_rows
    rw [List.length_map]
    exact filter_id_len_le_one g.reqs requirement_id h
  unfold discover_implicit_opportunities
  split
  · rfl
  · rcases hrows : req_rows g requirement_id with _ | ⟨r1, _ | ⟨r2, t⟩⟩
    · rfl
    · rfl
    · rw [hrows] at hlen
      simp at hlen

/-- The built-in rule catalog of `_create_inference_rules`
(lines 284-340), loaded through `add_inference_rule` at engine start. -/
def default_inference_rules : List InferenceRule :=
  [ { id := "RULE_001", rule_type := "implication",
      condition_pattern := "data_collection",
      conclusion_template := "Data quality assessment and profiling capabilities",
      confidence_weight := 0.9,
      domain_applicability := ["finance", "healthcare", "manufacturing", "retail"],
      success_rate := 0.85 },
    { id := "RULE_002", rule_type := "sequence",
      condition_pattern := "supplier_tracking",
      conclusion_template := "Supply chain risk analytics and predictive monitoring",
      confidence_weight := 0.8,
      domain_applicability := ["manufacturing", "retail", "logistics"],
      success_rate := 0.78 },
    { id := "RULE_003", rule_type := "correlation",
      condition_pattern := "customer_data",
      conclusion_template := "Customer segmentation and behavioral analytics",
      confidence_weight := 0.85,
      domain_applicability := ["retail", "e-commerce", "financial_services"],
      success_rate := 0.82 },
    { id := "RULE_004", rule_type := "prerequisite",
      condition_pattern := "reporting_automation",
      conclusion_template := "Data governance framework and metadata management",
      confidence_weight := 0.75,
      domain_applicability := ["all"],
      success_rate := 0.70 },
    { id := "RULE_005", rule_type := "implication",
      condition_pattern := "regulatory_compliance",
      conclusion_template := "Automated compliance monitoring and audit trails",
      confidence_weight := 0.9,
      domain_applicability := ["finance", "healthcare", "insurance"],
      success_rate := 0.88 } ]

/-- The example requirement of the module's `__main__` block
(lines 1059-1067), which is also the requirement of the specification's
scenario. -/
def example_requirement : BusinessRequirement :=
  { id := "REQ_001"
    description := "Implement supplier tracking system for automotive parts"
    priority := 1
    domain := "manufacturing"
    complexity := "high"
    estimated_hours := some 200
    business_value := some 5000 }

/-- The store of the specification's scenario: the built-in rule catalog
plus the scenario requirement. -/
def scenarioGraph : Graph :=
  { reqs := [example_requirement], opps := [], entities := [],
    rules := default_inference_rules, implies := [] }

/-- C1: for every store with unique requirement ids and every requirement
id, running `discover_implicit_opportunities` twice over a fault-free
store with no intervening mutation yields the same opportunity ids and
identical attribute content on both calls, and the second run adds no
node or edge to the store.  (The property holds degenerately: the broken
double read of the requirement-result cursor makes every discovery call
return the empty list and write nothing, see `discover_run_empty`.) -/
theorem claim_C1_discovery_idempotent (g : Graph) (requirement_id : String)
    (h : ReqWF g) :
    ((discover_implicit_opportunities noFault g requirement_id).1.map
        (fun o => o.id)
      = ((discover_implicit_opportunities noFault
          (discover_implicit_opportunities noFault g requirement_id).2
          requirement_id).1.map (fun o => o.id)))
    ∧ ((discover_implicit_opportunities noFault g requirement_id).1
      = (discover_implicit_opportunities noFault
          (discover_implicit_opportunities noFault g requirement_id).2
          requirement_id).1)
    ∧ ((discover_implicit_opportunities noFault
          (discover_implicit_opportunities noFault g requirement_id).2
          requirement_id).2
      = (discover_implicit_opportunities noFault g requirement_id).2) := by
  have h1 := discover_run_empty noFault g requirement_id h
  rw [h1]
  have h2 := discover_run_empty noFault g requirement_id h
  rw [h2]
  exact ⟨rfl, rfl, rfl⟩

/-- Witness for C1 at a concrete store. -/
theorem claim_C1_discovery_idempotent_witness :
    ReqWF scenarioGraph ∧
    ((discover_implicit_opportunities noFault scenarioGraph "REQ_001").1.map
        (fun o => o.id)
      = (discover_implicit_opportunities noFault
          (discover_implicit_opportunities noFault scenarioGraph "REQ_001").2
          "REQ_001").1.map (fun o => o.id)
    ∧ (discover_implicit_opportunities noFault scenarioGraph "REQ_001").1
      = (discover_implicit_opportunities noFault
          (discover_implicit_opportunities noFault scenarioGraph "REQ_001").2
          "REQ_001").1
    ∧ (discover_implicit_opportunities noFault
          (discover_implicit_opportunities noFault scenarioGraph "REQ_001").2
          "REQ_001").2
      = (discover_implicit_opportunities noFault scenarioGraph "REQ_001").2) :=
  ⟨by decide, claim_C1_discovery_idempotent scenarioGraph "REQ_001" (by decide)⟩

/-- C9: for every fault behaviour of the store and every store with
unique requirement ids, `discover_implicit_opportunities` returns
normally — the catch-all `except` on line 502 turns every internal
failure into a return of the opportunities accumulated so far — and that
accumulated list is empty, because the broken second cursor read fails
before any rule is applied; the store is left unmodified. -/
theorem claim_C9_total_over_store_failures (faults : Faults) (g : Graph)
    (requirement_id : String) (h : ReqWF g) :
    (discover_implicit_opportunities faults g requirement_id).1 = []
    ∧ (discover_implicit_opportunities faults g requirement_id).2 = g := by
  have h1 := discover_run_empty faults g requirement_id h
  rw [h1]
  exact ⟨rfl, rfl⟩

/-- Witness for C9 with a store that fails on every call. -/
theorem claim_C9_total_over_store_failures_witness :
    ReqWF scenarioGraph
    ∧ ((discover_implicit_opportunities (fun _ => true) scenarioGraph
          "REQ_001").1 = []
      ∧ (discover_implicit_opportunities (fun _ => true) scenarioGraph
          "REQ_001").2 = scenarioGraph) :=
  ⟨by decide,
    claim_C9_total_over_store_failures (fun _ => true) scenarioGraph "REQ_001"
      (by decide)⟩

/-- Counterexample to C4 as stated: for the concrete absent requirement
id `"REQ_MISSING"` on the empty store, discovery does not fail with a
`NotFound` error — it returns the normal result of an empty opportunity
list with the store unchanged (the translated function has no failure
outcome at all: the catch-all on line 502 swallows every internal
error). -/
theorem claim_C4_counterexample :
    discover_implicit_opportunities noFault Graph.empty "REQ_MISSING"
      = ([], Graph.empty) := rfl

/-- C4 (amended): for every store with unique requirement ids and every
requirement id absent from the store, discovery returns the empty list
and leaves the store unchanged — a normal result, not an error. -/
theorem claim_C4_absent_requirement_returns_empty (g : Graph)
    (requirement_id : String) (h : ReqWF g)
    (habsent : ∀ r ∈ g.reqs, r.id ≠ requirement_id) :
    discover_implicit_opportunities noFault g requirement_id = ([], g) :=
  discover_run_empty noFault g requirement_id h

/-- Witness for the amended C4. -/
theorem claim_C4_absent_requirement_returns_empty_witness :
    (ReqWF scenarioGraph ∧ ∀ r ∈ scenarioGraph.reqs, r.id ≠ "REQ_404")
    ∧ discover_implicit_opportunities noFault scenarioGraph "REQ_404"
        = ([], scenarioGraph) :=
  ⟨⟨by decide, by decide⟩,
    claim_C4_absent_requirement_returns_empty scenarioGraph "REQ_404"
      (by decide) (by decide)⟩

/-- C8: running discovery on the specification's scenario store returns
no opportunity at all (the cursor double read aborts the call before the
rule loop), and independently the match test of the rule loop rejects
`RULE_002`'s condition pattern against the scenario description — the
pattern `"supplier_tracking"` is neither a substring of the description
nor is its only whitespace token one. -/
theorem claim_C8_scenario_produces_nothing :
    discover_implicit_opportunities noFault scenarioGraph "REQ_001"
        = ([], scenarioGraph)
    ∧ rule_match_test (lowerStr "supplier_tracking")
        (lowerStr "Implement supplier tracking system for automotive parts")
        = false :=
  ⟨rfl, by decide⟩

/-- Modelled from the spec (for comparison with the code, §4.2): the
evidence-tier multiplier is 1.0 when the condition pattern matched as a
whole phrase of the description and 0.7 when only a token matched. -/
def spec_evidence_tier (patLower desc : String) : ℚ :=
  if hasSubstrS patLower desc then 1 else 0.7

/-- Modelled from the spec (for comparison with the code, §4.3):
`clamp(rule_confidence * success_rate * evidence_tier_multiplier, 0, 1)`. -/
def spec_confidence (rule_confidence success_rate tier : ℚ) : ℚ :=
  max 0 (min 1 (rule_confidence * success_rate * tier))

/-- A rule whose condition pattern can only match at the token tier
against the description used in the C2 counterexample. -/
def ruleC2 : InferenceRule :=
  { id := "RULE_C2", rule_type := "implication",
    condition_pattern := "risk monitoring",
    conclusion_template := "Predictive risk monitoring",
    confidence_weight := 0.5,
    domain_applicability := ["agriculture"],
    success_rate := 0.8 }

/-- The opportunity the rule loop produces from `ruleC2` for the C2
counterexample description. -/
def oC2 : AnalyticalOpportunity :=
  mk_rule_opportunity "REQ_C2" 1 ruleC2 "medium"

/-- Counterexample to C2 as stated: for the description
`"monitoring dashboard required"`, `ruleC2`'s pattern
`"risk monitoring"` matches only at the token tier (the token
`"monitoring"` occurs, the phrase does not), yet the produced confidence
score is `0.5 * 0.8 = 0.4`, not the claimed
`clamp(0.5 * 0.8 * 0.7, 0, 1) = 0.28`. -/
theorem claim_C2_counterexample :
    ((rule_loop noFault 0 Graph.empty "REQ_C2" "monitoring dashboard required"
        "medium" [ruleC2] 1).1.map (fun o => o.confidence_score)) = [0.4]
    ∧ hasSubstrS (lowerStr ruleC2.condition_pattern)
        "monitoring dashboard required" = false
    ∧ spec_confidence ruleC2.confidence_weight ruleC2.success_rate
        (spec_evidence_tier (lowerStr ruleC2.condition_pattern)
          "monitoring dashboard required") = 0.28
    ∧ (0.4 : ℚ) ≠ 0.28 := by
  refine ⟨?_, by decide, ?_, by norm_num⟩
  · have h : (rule_loop noFault 0 Graph.empty "REQ_C2"
        "monitoring dashboard required" "medium" [ruleC2] 1).1 = [oC2] := rfl
    rw [h]
    norm_num [oC2, mk_rule_opportunity, ruleC2]
  · have h : spec_evidence_tier (lowerStr ruleC2.condition_pattern)
        "monitoring dashboard required" = 0.7 := by
      unfold spec_evidence_tier
      rw [show hasSubstrS (lowerStr ruleC2.condition_pattern)
        "monitoring dashboard required" = false from by decide]
      rfl
    rw [h]
    norm_num [spec_confidence, ruleC2]

/-- C2 (amended): every opportunity the rule loop produces comes from a
rule whose (lowered) condition pattern passes the two-tier match test
against the lowered requirement description, and its confidence score is
exactly `confidence_weight * success_rate` — the evidence tier applies no
multiplier and no clamping is performed. -/
theorem claim_C2_confidence_is_plain_product (faults : Faults)
    (requirement_id req_description req_complexity : String)
    (rules : List InferenceRule) (o : AnalyticalOpportunity) (n : Nat)
    (g : Graph) (counter : Nat)
    (ho : o ∈ (rule_loop faults n g requirement_id req_description
      req_complexity rules counter).1) :
    ∃ r ∈ rules,
      rule_match_test (lowerStr r.condition_pattern) req_description = true
      ∧ o.confidence_score = r.confidence_weight * r.success_rate := by
  revert ho
  induction rules generalizing n g counter with
  | nil =>
    intro ho
    simp [rule_loop] at ho
  | cons rule rest ih =>
    intro ho
    rw [rule_loop] at ho
    by_cases hm : rule_match_test (lowerStr rule.condition_pattern)
        req_description = true
    · rw [if_pos hm] at ho
      simp only [List.mem_cons] at ho
      rcases ho with rfl | ho
    
      · exact ⟨rule, List.mem_cons_self rule rest, hm,  rfl⟩
      · obtain ⟨r, hr, hmt, hc⟩ := ih _ _ _ ho
        exact ⟨r, List.mem_cons_of_mem rule hr, hmt, hc⟩
    · rw [if_neg hm] at ho
      obtain ⟨r, hr, hmt, hc⟩ := ih _ _ _ ho
      exact ⟨r, List.mem_cons_of_mem rule hr, hmt, hc⟩

/-- Witness for the amended C2 at the counterexample inputs. -/
theorem claim_C2_confidence_is_plain_product_witness :
    (oC2 ∈ (rule_loop noFault 0 Graph.empty "REQ_C2"
        "monitoring dashboard required" "medium" [ruleC2] 1).1)
    ∧ ∃ r ∈ [ruleC2],
        rule_match_test (lowerStr r.condition_pattern)
          "monitoring dashboard required" = true
        ∧ oC2.confidence_score = r.confidence_weight * r.success_rate := by
  have hmem : oC2 ∈ (rule_loop noFault 0 Graph.empty "REQ_C2"
      "monitoring dashboard required" "medium" [ruleC2] 1).1 := by
    rw [show (rule_loop noFault 0 Graph.empty "REQ_C2"
      "monitoring dashboard required" "medium" [ruleC2] 1).1 = [oC2] from rfl]
    exact List.mem_singleton.mpr rfl
  exact ⟨hmem, claim_C2_confidence_is_plain_product noFault "REQ_C2"
    "monitoring dashboard required" "medium" [ruleC2] oC2 0 Graph.empty 1 hmem⟩

/-- Modelled from the claim's reading of the rule filter (for comparison
with the code): `(domain ∈ domains ∨ "all" ∈ domains) ∧
success_rate > 0.6`, i.e. the success-rate threshold applying to every
rule. -/
def spec_applicable (domain : String) (r : InferenceRule) : Bool :=
  (r.domain_applicability.contains domain
      || r.domain_applicability.contains "all")
    && decide (r.success_rate > 0.6)

/-- A rule matching the requirement's domain but with success rate below
the 0.6 threshold. -/
def ruleC3 : InferenceRule :=
  { id := "RULE_C3", rule_type := "correlation",
    condition_pattern := "soil",
    conclusion_template := "Soil analytics",
    confidence_weight := 0.9,
    domain_applicability := ["agriculture"],
    success_rate := 0.5 }

/-- Store holding only `ruleC3`. -/
def gC3 : Graph :=
  { reqs := [], opps := [], entities := [], rules := [ruleC3], implies := [] }

/-- Counterexample to C3 as stated: `ruleC3` matches the domain
`"agriculture"` but has success rate 0.5, so under the claim's filter
(`(domain ∈ domains ∨ all ∈ domains) ∧ success_rate > 0.6`) it would be
excluded; the code's query — where, by operator precedence, the
success-rate threshold binds only to the `'all'` disjunct — applies it. -/
theorem claim_C3_counterexample :
    inference_rule_query gC3 "agriculture" = [ruleC3]
    ∧ spec_applicable "agriculture" ruleC3 = false := by
  refine ⟨rfl, ?_⟩
  norm_num [spec_applicable, ruleC3]

/-- C3 (amended): for every store and domain, the rules the discovery
query returns are exactly those of the store satisfying
`domain ∈ domain_applicability ∨ ("all" ∈ domain_applicability ∧
success_rate > 0.6)`, and they are sorted by `(confidence_weight desc,
success_rate desc)`; the query has no id tie-break — rows equal on both
keys stay in store order. -/
theorem claim_C3_applicable_rules (g : Graph) (domain : String) :
    (∀ r, r ∈ inference_rule_query g domain
      ↔ r ∈ g.rules ∧ code_applicable domain r = true)
    ∧ (inference_rule_query g domain).Pairwise
        (fun a b => rule_le a b = true) := by
  constructor
  · intro r
    unfold inference_rule_query
    rw [mem_sortRules]
    simp [List.mem_filter]
  · exact pairwise_sortRules _

/-- The requirement present in the C5 counterexample store. -/
def reqC5 : BusinessRequirement :=
  { id := "REQ_C5", description := "Collect sensor data", priority := 2,
    domain := "manufacturing", complexity := "medium",
    estimated_hours := none, business_value := none }

/-- Store holding only `reqC5`. -/
def gC5 : Graph :=
  { reqs := [reqC5], opps := [], entities := [], rules := [], implies := [] }

/-- A fresh opportunity to be written in the C5 counterexample. -/
def oppC5 : AnalyticalOpportunity :=
  { id := "OPP_C5", description := "Data quality assessment",
    complexity := "medium", business_value := 900, confidence_score := 0.72,
    discovery_method := "graph_traversal",
    related_requirements := ["REQ_C5"],
    implementation_approach := "Implement data profiling tools",
    estimated_hours := 160, roi_projection := none }

/-- Counterexample to C5 as stated: with a store that fails on the
second write of `_add_discovered_opportunity` (the `IMPLIES` edge
creation) after the first write (the opportunity node creation)
succeeded, the resulting store holds the opportunity node with no
`IMPLIES` edge at all — the two writes are separate `conn.execute`
calls, not an atomic unit, and the edge-write failure is caught and
merely logged. -/
theorem claim_C5_counterexample :
    ((add_discovered_opportunity (fun k => k == 1) 0 gC5 oppC5 "REQ_C5"
        "RULE_S").2.opps.map (fun o => o.id) = ["OPP_C5"])
    ∧ (add_discovered_opportunity (fun k => k == 1) 0 gC5 oppC5 "REQ_C5"
        "RULE_S").2.implies = [] :=
  ⟨rfl, rfl⟩

/-- C5 (amended): the opportunity node and its `IMPLIES` edge are written
by two separate store calls; when neither call fails, the opportunity id
is fresh and the requirement is present, the call appends the node and an
`IMPLIES` edge from the requirement to it — but the pair is not atomic:
if the edge write fails after the node write, the node persists without
its edge (see the counterexample). -/
theorem claim_C5_separate_writes (g : Graph) (opp : AnalyticalOpportunity)
    (requirement_id source_id : String) (n : Nat)
    (hfresh : g.opps.any (fun o => o.id == opp.id) = false)
    (hreq : g.reqs.any (fun r => r.id == requirement_id) = true) :
    ((add_discovered_opportunity noFault n g opp requirement_id
        source_id).2.opps = g.opps ++ [opp])
    ∧ ∃ e ∈ (add_discovered_opportunity noFault n g opp requirement_id
        source_id).2.implies,
        e.fromReq = requirement_id ∧ e.toOpp = opp.id := by
  unfold add_discovered_opportunity noFault
  simp only [Bool.false_eq_true, if_false, hfresh, if_neg Bool.false_ne_true]
  refine ⟨trivial, ?_⟩
  obtain ⟨r, hrmem, hrid⟩ := List.any_eq_true.mp hreq
  refine ⟨{ fromReq := requirement_id, toOpp := opp.id,
            confidence := opp.confidence_score,
            reasoning := "Discovered via " ++ opp.discovery_method,
            inference_path := "REQ:" ++ requirement_id ++ " -> SOURCE:"
              ++ source_id ++ " -> OPP:" ++ opp.id }, ?_, rfl, rfl⟩
  apply List.mem_append_right
  apply List.mem_flatMap.mpr
  refine ⟨r, List.mem_filter.mpr ⟨hrmem, hrid⟩, ?_⟩
  apply List.mem_map.mpr
  refine ⟨opp, List.mem_filter.mpr
    ⟨List.mem_append_right _ (List.mem_singleton.mpr rfl),
      beq_self_eq_true opp.id⟩, rfl⟩

/-- Witness for the amended C5. -/
theorem claim_C5_separate_writes_witness :
    (gC5.opps.any (fun o => o.id == oppC5.id) = false
      ∧ gC5.reqs.any (fun r => r.id == "REQ_C5") = true)
    ∧ (((add_discovered_opportunity noFault 0 gC5 oppC5 "REQ_C5"
          "RULE_S").2.opps = gC5.opps ++ [oppC5])
      ∧ ∃ e ∈ (add_discovered_opportunity noFault 0 gC5 oppC5 "REQ_C5"
          "RULE_S").2.implies,
          e.fromReq = "REQ_C5" ∧ e.toOpp = oppC5.id) :=
  ⟨⟨rfl, rfl⟩,
    claim_C5_separate_writes gC5 oppC5 "REQ_C5" "RULE_S" 0 rfl rfl⟩

/-- The cross-domain loop yields exactly one opportunity per selected
entity row. -/
theorem cross_loop_length (faults : Faults) (n : Nat) (g : Graph)
    (req_id req_domain req_description : String)
    (ents : List DomainEntity) (counter : Nat) :
    (cross_loop faults n g req_id req_domain req_description
      ents counter).1.length = ents.length := by
  induction ents generalizing n g counter with
  | nil => rfl
  | cons e rest ih =>
    rw [cross_loop]
    simp only [List.length_cons]
    rw [ih]

/-- Every opportunity the cross-domain loop yields is built by
`mk_cross_opportunity` from one of the selected entity rows. -/
theorem cross_loop_mem (faults : Faults) (n : Nat) (g : Graph)
    (req_id req_domain req_description : String)
    (ents : List DomainEntity) (counter : Nat) (o : AnalyticalOpportunity)
    (ho : o ∈ (cross_loop faults n g req_id req_domain req_description
      ents counter).1) :
    ∃ e ∈ ents, ∃ k : Nat,
      o = mk_cross_opportunity req_id req_domain req_description k e := by
  revert ho
  induction ents generalizing n g counter with
  | nil =>
    intro ho
    simp [cross_loop] at ho
  | cons e rest ih =>
    intro ho
    rw [cross_loop] at ho
    simp only [List.mem_cons] at ho
    rcases ho with rfl | ho
    · exact ⟨e, List.mem_cons_self e rest, counter, rfl⟩
    · obtain ⟨e', he', k, hk⟩ := ih _ _ _ ho
      exact ⟨e', List.mem_cons_of_mem e he', k, hk⟩

/-- C6: the cross-domain correlator returns at most 5 opportunities, and
every one of them has discovery method `"cross_domain"`, confidence score
exactly 0.7, and is synthesized from a `DomainEntity` of the store whose
industry differs from the requirement's domain, whose maturity level is
`"mature"` or `"enterprise"`, and whose data maturity is `"managed"` or
`"optimized"`; its business value is the cross-domain value for that
entity's industry. -/
theorem claim_C6_cross_domain_selection (faults : Faults) (n : Nat)
    (g : Graph) (req_id req_domain req_description : String) :
    (discover_cross_domain_opportunities faults n g req_id req_domain
        req_description).1.length ≤ 5
    ∧ ∀ o ∈ (discover_cross_domain_opportunities faults n g req_id
        req_domain req_description).1,
        o.discovery_method = "cross_domain"
        ∧ o.confidence_score = 0.7
        ∧ ∃ e ∈ g.entities,
            e.industry ≠ req_domain
            ∧ (e.maturity_level = "mature" ∨ e.maturity_level = "enterprise")
            ∧ (e.data_maturity = "managed" ∨ e.data_maturity = "optimized")
            ∧ o.business_value
                = calculate_cross_domain_value req_domain e.industry := by
  unfold discover_cross_domain_opportunities
  split
  · exact ⟨by simp, by simp⟩
  · constructor
    · rw [cross_loop_length]
      unfold cross_domain_query
      exact le_trans (List.length_take_le 5 _) (le_refl 5)
    · intro o ho
      obtain ⟨e, he, k, hk⟩ := cross_loop_mem faults (n + 1) g req_id
        req_domain req_description _ 1 o ho
      have he' : e ∈ g.entities.filter (fun e =>
          e.industry != req_domain
            && (e.maturity_level == "mature" || e.maturity_level == "enterprise")
            && (e.data_maturity == "managed" || e.data_maturity == "optimized")) :=
        List.take_subset 5 _ he
      obtain ⟨hemem, hcond⟩ := List.mem_filter.mp he'
      simp only [Bool.and_eq_true, Bool.or_eq_true, beq_iff_eq,
        bne_iff_ne] at hcond
      subst hk
      refine ⟨rfl, rfl, e, hemem, hcond.1.1, hcond.1.2, hcond.2, rfl⟩

/-- The domain entity of the C6 witness store. -/
def entC6 : DomainEntity :=
  { id := "ENT_C6", name := "Retail Data Corp", entity_type := "company",
    industry := "retail", maturity_level := "enterprise",
    technology_stack := ["SAP", "Oracle", "AWS", "Databricks"],
    data_maturity := "optimized" }

/-- Store holding only `entC6`. -/
def gC6 : Graph :=
  { reqs := [], opps := [], entities := [entC6], rules := [], implies := [] }

/-- The opportunity the cross-domain correlator produces from `entC6`. -/
def oC6 : AnalyticalOpportunity :=
  mk_cross_opportunity "REQ_C6" "manufacturing" "supplier analytics" 1 entC6

/-- Witness for C6 at a concrete store. -/
theorem claim_C6_cross_domain_selection_witness :
    (oC6 ∈ (discover_cross_domain_opportunities noFault 0 gC6 "REQ_C6"
        "manufacturing" "supplier analytics").1)
    ∧ (oC6.discovery_method = "cross_domain"
      ∧ oC6.confidence_score = 0.7
      ∧ ∃ e ∈ gC6.entities,
          e.industry ≠ "manufacturing"
          ∧ (e.maturity_level = "mature" ∨ e.maturity_level = "enterprise")
          ∧ (e.data_maturity = "managed" ∨ e.data_maturity = "optimized")
          ∧ oC6.business_value
              = calculate_cross_domain_value "manufacturing" e.industry) := by
  have hmem : oC6 ∈ (discover_cross_domain_opportunities noFault 0 gC6
      "REQ_C6" "manufacturing" "supplier analytics").1 := by
    rw [show (discover_cross_domain_opportunities noFault 0 gC6 "REQ_C6"
      "manufacturing" "supplier analytics").1 = [oC6] from rfl]
    exact List.mem_singleton.mpr rfl
  exact ⟨hmem, (claim_C6_cross_domain_selection noFault 0 gC6 "REQ_C6"
    "manufacturing" "supplier analytics").2 oC6 hmem⟩

/-- A rule violating every bound of claim C7: confidence weight and
success rate outside [0, 1] and an empty domain-applicability set. -/
def ruleC7 : InferenceRule :=
  { id := "RULE_BAD", rule_type := "implication",
    condition_pattern := "anything",
    conclusion_template := "Anything analytics",
    confidence_weight := 1.5,
    domain_applicability := [],
    success_rate := 2.5 }

/-- Counterexample to C7 as stated: `add_inference_rule` accepts and
stores `ruleC7` — whose confidence weight 1.5 and success rate 2.5 lie
outside [0, 1] and whose domain-applicability set is empty — returning
`True`; no validation is performed. -/
theorem claim_C7_counterexample :
    (add_inference_rule noFault 0 Graph.empty ruleC7).1 = true
    ∧ (add_inference_rule noFault 0 Graph.empty ruleC7).2.2.rules = [ruleC7]
    ∧ (1 : ℚ) < ruleC7.confidence_weight
    ∧ (1 : ℚ) < ruleC7.success_rate
    ∧ ruleC7.domain_applicability = [] := by
  refine ⟨rfl, rfl, ?_, ?_, rfl⟩
  · norm_num [ruleC7]
  · norm_num [ruleC7]

/-- C7 (amended): `add_inference_rule` performs no validation at all:
every rule whose id is not already present is stored as given —
regardless of its confidence weight, success rate or
domain-applicability set — and the call returns `True`; it returns
`False` without storing only when the store write itself raises (a fault
or a duplicate id). -/
theorem claim_C7_no_validation (g : Graph) (rule : InferenceRule) (n : Nat)
    (hfresh : g.rules.any (fun r => r.id == rule.id) = false) :
    add_inference_rule noFault n g rule
      = (true, n + 1, { g with rules := g.rules ++ [rule] }) := by
  unfold add_inference_rule noFault
  simp [hfresh]

/-- Witness for the amended C7, at the out-of-bounds rule of the
counterexample. -/
theorem claim_C7_no_validation_witness :
    (Graph.empty.rules.any (fun r => r.id == ruleC7.id) = false)
    ∧ add_inference_rule noFault 0 Graph.empty ruleC7
        = (true, 1, { Graph.empty with rules := Graph.empty.rules ++ [ruleC7] }) :=
  ⟨rfl, claim_C7_no_validation Graph.empty ruleC7 0 rfl⟩

/-- C10: the cross-domain business value is bounded by [1320, 1800] for
every pair of domain strings, taking exactly the tabulated values on the
four tabulated pairs and `round(1200 * 1.1, 2) = 1320` on every other
pair (sampled here at a non-tabulated pair). -/
theorem claim_C10_cross_domain_value_range :
    (∀ source_domain target_domain : String,
        1320 ≤ calculate_cross_domain_value source_domain target_domain
        ∧ calculate_cross_domain_value source_domain target_domain ≤ 1800)
    ∧ calculate_cross_domain_value "finance" "healthcare" = 1680
    ∧ calculate_cross_domain_value "manufacturing" "retail" = 1560
    ∧ calculate_cross_domain_value "healthcare" "insurance" = 1800
    ∧ calculate_cross_domain_value "retail" "logistics" = 1440
    ∧ calculate_cross_domain_value "manufacturing" "agriculture" = 1320 := by
  refine ⟨?_, ?_, ?_, ?_, ?_, ?_⟩
  · intro s t
    unfold calculate_cross_domain_value domain_synergy
    split_ifs <;> constructor <;> norm_num [round2, roundHalfEven]
  · have h : domain_synergy "finance" "healthcare" = 1.4 := rfl
    rw [calculate_cross_domain_value, h]
    norm_num [round2, roundHalfEven]
  · have h : domain_synergy "manufacturing" "retail" = 1.3 := rfl
    rw [calculate_cross_domain_value, h]
    norm_num [round2, roundHalfEven]
  · have h : domain_synergy "healthcare" "insurance" = 1.5 := rfl
    rw [calculate_cross_domain_value, h]
    norm_num [round2, roundHalfEven]
  · have h : domain_synergy "retail" "logistics" = 1.2 := rfl
    rw [calculate_cross_domain_value, h]
    norm_num [round2, roundHalfEven]
  · have h : domain_synergy "manufacturing" "agriculture" = 1.1 := rfl
    rw [calculate_cross_domain_value, h]
    norm_num [round2, roundHalfEven]
